import Mathlib

/-!
Verification of the triage inference pipeline
(backend/services/inference.py, routing.py, explain.py).

Python strings are modelled as lists of characters, Python floats as
rationals (finite values; the pipeline only produces and compares finite
numbers), and loosely-typed Python values as the inductive type PyVal.
Fallible Python code (dict indexing, numeric coercion, membership tests
on non-containers) is modelled in the Except monad, where an error value
stands for a raised exception.
-/

/-- Python strings as character lists. -/
abbrev PyStr := List Char

/-- Shorthand turning a Lean string literal into the character-list model. -/
def pys (s : String) : PyStr := s.toList

/-- Loosely-typed Python values as they occur in patient records and EHR
rows: None, int, float (modelled as a rational), str, and list. -/
inductive PyVal where
  | none : PyVal
  | int (n : ℤ) : PyVal
  | float (q : ℚ) : PyVal
  | str (s : PyStr) : PyVal
  | list (xs : List PyVal) : PyVal
deriving Repr

instance : Inhabited PyVal := ⟨PyVal.none⟩

/-- A Python dict with string keys, in insertion order. -/
abbrev PyDict := List (PyStr × PyVal)

/-- `d[key]` lookup returning the first binding, none when absent. -/
def dictLookup : PyDict → PyStr → Option PyVal
  | [], _ => Option.none
  | (k, v) :: rest, key => if k = key then some v else dictLookup rest key

/-- `d.get(key, default)`. -/
def dictGet (d : PyDict) (key : PyStr) (dflt : PyVal) : PyVal :=
  (dictLookup d key).getD dflt

/-- `d[key]` as a fallible operation: raises KeyError when absent. -/
def dictGetItem (d : PyDict) (key : PyStr) : Except String PyVal :=
  match dictLookup d key with
  | some v => Except.ok v
  | Option.none => Except.error "KeyError"

/-- Python `needle in hay` for strings: substring containment. -/
def strContains (needle : PyStr) : PyStr → Bool
  | [] => needle.isEmpty
  | c :: t => needle.isPrefixOf (c :: t) || strContains needle t

/-- Python `==` comparison of a string against an arbitrary value:
true only for an equal string (str never equals int/float/None/list). -/
def pyStrEqVal (n : PyStr) : PyVal → Bool
  | .str s => n = s
  | _ => false

/-- Python `needle in container` for a string needle: substring test on a
string, element-wise `==` on a list, TypeError on non-containers. -/
def pyIn (needle : PyStr) : PyVal → Except String Bool
  | .str s => Except.ok (strContains needle s)
  | .list xs => Except.ok (xs.any (pyStrEqVal needle))
  | _ => Except.error "TypeError"

/-- `x > bound` between a Python value and a numeric literal: defined for
int and float, TypeError otherwise (str/None/list vs int). -/
def pyGtNum (v : PyVal) (bound : ℚ) : Except String Bool :=
  match v with
  | .int n => Except.ok (decide (bound < (n : ℚ)))
  | .float q => Except.ok (decide (bound < q))
  | _ => Except.error "TypeError"

/-- Digit run to a natural number. -/
def digitsToNat (ds : List Char) : ℕ :=
  ds.foldl (fun a c => a * 10 + (c.toNat - 48)) 0

/-- Unsigned decimal literal: digits, optionally a point and more digits
("12", "12.", "12.5", ".5"); anything else fails. -/
def parseUnsigned (s : List Char) : Option ℚ :=
  let intPart := s.takeWhile Char.isDigit
  let rest := s.drop intPart.length
  match rest with
  | [] => if intPart.isEmpty then Option.none else some (digitsToNat intPart : ℚ)
  | '.' :: frac =>
    if frac.all Char.isDigit && !(intPart.isEmpty && frac.isEmpty) then
      some ((digitsToNat intPart : ℚ) + (digitsToNat frac : ℚ) / 10 ^ frac.length)
    else Option.none
  | _ => Option.none

/-- Python `str.strip()`: drop whitespace from both ends. -/
def pyTrim (s : PyStr) : PyStr :=
  ((s.dropWhile Char.isWhitespace).reverse.dropWhile Char.isWhitespace).reverse

/-- Python `float(string)`: strip, optional sign, decimal literal
(exponent forms and inf/nan are outside the finite model and fail). -/
def pyFloatOfStr (s : PyStr) : Option ℚ :=
  match pyTrim s with
  | '+' :: r => parseUnsigned r
  | '-' :: r => (parseUnsigned r).map (fun q => -q)
  | r => parseUnsigned r

/-- Python `float(value)`: ints and floats convert, numeric strings parse,
None and lists raise (here: fail). -/
def pyFloatQ : PyVal → Option ℚ
  | .int n => some (n : ℚ)
  | .float q => some q
  | .str s => pyFloatOfStr s
  | _ => Option.none

/-- inference.py `_safe_float`: `float(value)` with the default returned on
TypeError/ValueError. -/
def safe_float (value : PyVal) (dflt : ℚ) : ℚ :=
  (pyFloatQ value).getD dflt

/-- Python `str(value)`; only the string case is exercised by the theorems
(the other constructors approximate Python's repr). -/
def pyStrOf : PyVal → PyStr
  | .str s => s
  | .int n => (toString n).toList
  | .float q => (toString q).toList
  | .none => pys "None"
  | .list _ => pys "[...]"

/-- Python `s.split(",")`: split into the (possibly empty) pieces between
commas; the empty string splits to [""]. -/
def splitOnComma : List Char → List (List Char)
  | [] => [[]]
  | c :: rest =>
    if c = ',' then [] :: splitOnComma rest
    else
      match splitOnComma rest with
      | [] => [[c]]
      | r :: rs => (c :: r) :: rs

/-- inference.py `_normalize_symptoms`: list entries are stringified and
trimmed with empties dropped; a string is split on commas, trimmed,
empties dropped; any other shape gives []. -/
def normalize_symptoms : PyVal → List PyStr
  | .list xs => (xs.map (fun item => pyTrim (pyStrOf item))).filter (fun s => !s.isEmpty)
  | .str s => ((splitOnComma s).map pyTrim).filter (fun s => !s.isEmpty)
  | _ => []

/-- inference.py `_normalize_conditions`: same body as
`_normalize_symptoms`. -/
def normalize_conditions : PyVal → List PyStr
  | .list xs => (xs.map (fun item => pyTrim (pyStrOf item))).filter (fun s => !s.isEmpty)
  | .str s => ((splitOnComma s).map pyTrim).filter (fun s => !s.isEmpty)
  | _ => []

/-- routing.py lines 3-5, inner vital-sign test with Python's evaluation
order: `patient_data["Heart_Rate"] > 130 or patient_data["Temperature"] > 103`
(the temperature is only fetched when the heart-rate test is false). -/
def highVitals (patient_data : PyDict) : Except String Bool :=
  match dictGetItem patient_data (pys "Heart_Rate") with
  | Except.error e => Except.error e
  | Except.ok hr =>
    match pyGtNum hr 130 with
    | Except.error e => Except.error e
    | Except.ok true => Except.ok true
    | Except.ok false =>
      match dictGetItem patient_data (pys "Temperature") with
      | Except.error e => Except.error e
      | Except.ok t => pyGtNum t 103

/-- routing.py lines 7-22: the symptom/condition membership cascade run on
the raw `Symptoms` and `Pre_Existing_Conditions` values. -/
def symptomCascade (symptoms conditions : PyVal) : Except String PyStr :=
  match pyIn (pys "Chest Pain") symptoms with
  | Except.error e => Except.error e
  | Except.ok true => Except.ok (pys "Cardiology")
  | Except.ok false =>
    match pyIn (pys "Shortness of Breath") symptoms with
    | Except.error e => Except.error e
    | Except.ok true => Except.ok (pys "Pulmonology")
    | Except.ok false =>
      match pyIn (pys "Seizure") symptoms with
      | Except.error e => Except.error e
      | Except.ok true => Except.ok (pys "Neurology")
      | Except.ok false =>
        match pyIn (pys "Diabetes") conditions with
        | Except.error e => Except.error e
        | Except.ok true => Except.ok (pys "Endocrinology")
        | Except.ok false => Except.ok (pys "General Medicine")

/-- routing.py `recommend_department`: the raw-dict rule cascade. -/
def recommend_department (patient_data : PyDict) (predicted_risk : PyStr) :
    Except String PyStr :=
  let symptoms := dictGet patient_data (pys "Symptoms") (.list [])
  let conditions := dictGet patient_data (pys "Pre_Existing_Conditions") (.list [])
  if predicted_risk = pys "High" then
    match highVitals patient_data with
    | Except.error e => Except.error e
    | Except.ok true => Except.ok (pys "Emergency")
    | Except.ok false => symptomCascade symptoms conditions
  else symptomCascade symptoms conditions

/-- Modelled from the spec's routing description (section 4.5 tier 3): the
rule cascade over an already well-typed record, for comparison with
`recommend_department`. -/
def routerSpec (risk : PyStr) (hr temp : ℚ) (symptoms conditions : List PyStr) :
    PyStr :=
  if risk = pys "High" ∧ (130 < hr ∨ 103 < temp) then pys "Emergency"
  else if pys "Chest Pain" ∈ symptoms then pys "Cardiology"
  else if pys "Shortness of Breath" ∈ symptoms then pys "Pulmonology"
  else if pys "Seizure" ∈ symptoms then pys "Neurology"
  else if pys "Diabetes" ∈ conditions then pys "Endocrinology"
  else pys "General Medicine"

theorem strEq_map_str (n : PyStr) (xs : List PyStr) :
    (xs.map PyVal.str).any (pyStrEqVal n) = decide (n ∈ xs) := by
  induction xs with
  | nil => rfl
  | cons x t ih =>
    by_cases h : n = x
    · simp [h, pyStrEqVal]
    · simp [List.any_cons, pyStrEqVal, h, ih, List.mem_cons]

theorem symptomCascade_lists (syms conds : List PyStr) :
    symptomCascade (PyVal.list (syms.map PyVal.str)) (PyVal.list (conds.map PyVal.str)) =
      Except.ok
        (if pys "Chest Pain" ∈ syms then pys "Cardiology"
         else if pys "Shortness of Breath" ∈ syms then pys "Pulmonology"
         else if pys "Seizure" ∈ syms then pys "Neurology"
         else if pys "Diabetes" ∈ conds then pys "Endocrinology"
         else pys "General Medicine") := by
  simp only [symptomCascade, pyIn, strEq_map_str]
  by_cases h1 : pys "Chest Pain" ∈ syms <;>
    by_cases h2 : pys "Shortness of Breath" ∈ syms <;>
    by_cases h3 : pys "Seizure" ∈ syms <;>
    by_cases h4 : pys "Diabetes" ∈ conds <;>
    simp [h1, h2, h3, h4]

theorem highVitals_floats (d : PyDict) (hr temp : ℚ)
    (hhr : dictLookup d (pys "Heart_Rate") = some (PyVal.float hr))
    (htm : dictLookup d (pys "Temperature") = some (PyVal.float temp)) :
    highVitals d = Except.ok (decide (130 < hr) || decide (103 < temp)) := by
  simp only [highVitals, dictGetItem, hhr, htm, pyGtNum]
  by_cases h : (130 : ℚ) < hr <;> simp [h]

/-- C5: on a well-typed patient record (numeric vitals, list-shaped
symptoms and conditions), routing.py's `recommend_department` returns,
without raising, exactly the first match of the fixed cascade described by
the spec (High risk + extreme vitals → Emergency; Chest Pain → Cardiology;
Shortness of Breath → Pulmonology; Seizure → Neurology; Diabetes →
Endocrinology; General Medicine). -/
theorem recommend_department_refines_routerSpec
    (d : PyDict) (risk : PyStr) (hr temp : ℚ) (syms conds : List PyStr)
    (hhr : dictLookup d (pys "Heart_Rate") = some (PyVal.float hr))
    (htm : dictLookup d (pys "Temperature") = some (PyVal.float temp))
    (hsy : dictLookup d (pys "Symptoms") = some (PyVal.list (syms.map PyVal.str)))
    (hco : dictLookup d (pys "Pre_Existing_Conditions") =
      some (PyVal.list (conds.map PyVal.str))) :
    recommend_department d risk = Except.ok (routerSpec risk hr temp syms conds) := by
  unfold recommend_department routerSpec
  simp only [dictGet, hsy, hco, Option.getD_some]
  rw [symptomCascade_lists, highVitals_floats d hr temp hhr htm]
  by_cases hrisk : risk = pys "High"
  · by_cases hv : (130 : ℚ) < hr ∨ (103 : ℚ) < temp
    · have : (decide ((130:ℚ) < hr) || decide ((103:ℚ) < temp)) = true := by
        rcases hv with h | h <;> simp [h]
      simp [hrisk, this, hv]
    · have : (decide ((130:ℚ) < hr) || decide ((103:ℚ) < temp)) = false := by
        push_neg at hv
        simp [not_lt.mpr hv.1, not_lt.mpr hv.2]
      simp [hrisk, this, hv]
  · have : ¬(risk = pys "High" ∧ ((130:ℚ) < hr ∨ (103:ℚ) < temp)) := by
      intro h; exact hrisk h.1
    simp [hrisk, this]

/-- C5 witness: risk "Medium", symptoms ["Chest Pain"], heart rate 90,
temperature 98.6 routes to "Cardiology". -/
theorem recommend_department_refines_routerSpec_witness :
    recommend_department
      [(pys "Heart_Rate", PyVal.float 90), (pys "Temperature", PyVal.float (493/5)),
       (pys "Symptoms", PyVal.list [PyVal.str (pys "Chest Pain")]),
       (pys "Pre_Existing_Conditions", PyVal.list [])]
      (pys "Medium") = Except.ok (pys "Cardiology") := by
  have h := recommend_department_refines_routerSpec
    [(pys "Heart_Rate", PyVal.float 90), (pys "Temperature", PyVal.float (493/5)),
     (pys "Symptoms", PyVal.list [PyVal.str (pys "Chest Pain")]),
     (pys "Pre_Existing_Conditions", PyVal.list [])]
    (pys "Medium") 90 (493/5) [pys "Chest Pain"] [] (by rfl) (by rfl) (by rfl) (by rfl)
  rw [h]
  rfl

/-- C10: the router tests membership on the raw `Symptoms` value; when that
value is the string "Severe Chest Pains", the test is substring containment,
so the router returns "Cardiology" even though the normalized symptom list
contains no element equal to "Chest Pain". -/
theorem recommend_department_substring_match :
    recommend_department [(pys "Symptoms", PyVal.str (pys "Severe Chest Pains"))]
        (pys "Low") = Except.ok (pys "Cardiology") ∧
      (pys "Chest Pain") ∉
        normalize_symptoms (PyVal.str (pys "Severe Chest Pains")) := by
  constructor
  · rfl
  · decide

/-- C3 (code bug): on the malformed input where `Symptoms` is null, the
rule router raises a TypeError (Python evaluates a membership test on
None) instead of degrading to a safe default, so `predict_patient` cannot
complete; the spec's never-raises contract is violated by routing.py. -/
theorem recommend_department_raises_on_null_symptoms :
    recommend_department [(pys "Symptoms", PyVal.none)] (pys "Low") =
      Except.error "TypeError" ∧
    recommend_department [(pys "Age", PyVal.int 50)] (pys "High") =
      Except.error "KeyError" := by
  exact ⟨rfl, rfl⟩

/-- inference.py lines 121-131, department merge of `predict_patient`:
the learned label is forced to "Emergency" under the safety override,
otherwise a falsy (empty) learned label falls back to the rule router's
result. The learned model's label and the router's result enter as
parameters since the trained model is a frozen external artifact. -/
def predictDepartment (patient_input : PyDict) (risk_label dept_label
    routed_department : PyStr) : PyStr :=
  if risk_label = pys "High" ∧
      (130 < safe_float (dictGet patient_input (pys "Heart_Rate") PyVal.none) 0 ∨
       103 < safe_float (dictGet patient_input (pys "Temperature") PyVal.none) 0) then
    pys "Emergency"
  else if dept_label.isEmpty then routed_department
  else dept_label

/-- C1: the final recommended department follows the three-tier precedence:
High risk with heart rate above 130 or temperature above 103 forces
"Emergency" regardless of the learned label and the routed result; else a
non-empty learned label wins; else the rule router's result is used. -/
theorem predictDepartment_three_tier (d : PyDict) (risk dept routed : PyStr) :
    (risk = pys "High" ∧
        (130 < safe_float (dictGet d (pys "Heart_Rate") PyVal.none) 0 ∨
         103 < safe_float (dictGet d (pys "Temperature") PyVal.none) 0) →
      predictDepartment d risk dept routed = pys "Emergency") ∧
    (¬(risk = pys "High" ∧
        (130 < safe_float (dictGet d (pys "Heart_Rate") PyVal.none) 0 ∨
         103 < safe_float (dictGet d (pys "Temperature") PyVal.none) 0)) →
      dept ≠ [] →
      predictDepartment d risk dept routed = dept) ∧
    (¬(risk = pys "High" ∧
        (130 < safe_float (dictGet d (pys "Heart_Rate") PyVal.none) 0 ∨
         103 < safe_float (dictGet d (pys "Temperature") PyVal.none) 0)) →
      dept = [] →
      predictDepartment d risk dept routed = routed) := by
  refine ⟨fun h => ?_, fun h hd => ?_, fun h hd => ?_⟩
  · simp [predictDepartment, h]
  · have : ¬dept.isEmpty := by
      cases dept with
      | nil => exact absurd rfl hd
      | cons c t => simp [List.isEmpty]
    simp [predictDepartment, h, this]
  · simp [predictDepartment, h, hd]

/-- C1 witness: concrete instances of all three tiers. -/
theorem predictDepartment_three_tier_witness :
    predictDepartment [(pys "Heart_Rate", PyVal.float 140)] (pys "High")
        (pys "Cardiology") (pys "Neurology") = pys "Emergency" ∧
    predictDepartment [(pys "Heart_Rate", PyVal.float 90)] (pys "High")
        (pys "Cardiology") (pys "Neurology") = pys "Cardiology" ∧
    predictDepartment [(pys "Heart_Rate", PyVal.float 90)] (pys "High")
        [] (pys "Neurology") = pys "Neurology" := by
  refine ⟨?_, ?_, ?_⟩
  · exact (predictDepartment_three_tier [(pys "Heart_Rate", PyVal.float 140)]
      (pys "High") (pys "Cardiology") (pys "Neurology")).1
      ⟨rfl, Or.inl (by norm_num [safe_float, dictGet, dictLookup, pyFloatQ])⟩
  · exact (predictDepartment_three_tier [(pys "Heart_Rate", PyVal.float 90)]
      (pys "High") (pys "Cardiology") (pys "Neurology")).2.1
      (by
        intro h
        rcases h.2 with hv | hv <;> revert hv <;> decide)
      (by decide)
  · exact (predictDepartment_three_tier [(pys "Heart_Rate", PyVal.float 90)]
      (pys "High") [] (pys "Neurology")).2.2
      (by
        intro h
        rcases h.2 with hv | hv <;> revert hv <;> decide)
      rfl

/-- Python 3 `round` to the nearest integer, ties to the even integer. -/
def pyRound (q : ℚ) : ℤ :=
  if q - ⌊q⌋ < 1/2 then ⌊q⌋
  else if 1/2 < q - ⌊q⌋ then ⌊q⌋ + 1
  else if Even ⌊q⌋ then ⌊q⌋ else ⌊q⌋ + 1

/-- inference.py `_calculate_priority_score`: base by risk label plus
`round(confidence * 20)`, clamped to [0, 100]. -/
def calculate_priority_score (risk_label : PyStr) (confidence : ℚ) : ℤ :=
  let base : ℤ :=
    if risk_label = pys "Low" then 25
    else if risk_label = pys "Medium" then 55
    else if risk_label = pys "High" then 80
    else 40
  let score := base + pyRound (confidence * 20)
  max 0 (min 100 score)

theorem pyRound_bounds (q : ℚ) : ⌊q⌋ ≤ pyRound q ∧ pyRound q ≤ ⌊q⌋ + 1 := by
  unfold pyRound
  split_ifs <;> omega

theorem pyRound_mono {a b : ℚ} (h : a ≤ b) : pyRound a ≤ pyRound b := by
  rcases lt_or_le ⌊a⌋ ⌊b⌋ with hf | hf
  · have h1 := (pyRound_bounds a).2
    have h2 := (pyRound_bounds b).1
    omega
  · have hab : ⌊a⌋ = ⌊b⌋ := le_antisymm (Int.floor_mono h) hf
    unfold pyRound
    rw [← hab]
    split_ifs <;> first | omega | linarith

/-- C4: the priority score is the risk-label base (Low 25, Medium 55,
High 80, anything else 40) plus `round(confidence * 20)` clamped to
[0, 100]; it always lies in [0, 100] and, for a fixed risk label, is
monotonically non-decreasing in the confidence. -/
theorem calculate_priority_score_spec :
    (∀ r c, 0 ≤ calculate_priority_score r c ∧ calculate_priority_score r c ≤ 100) ∧
    (∀ r c₁ c₂, c₁ ≤ c₂ →
      calculate_priority_score r c₁ ≤ calculate_priority_score r c₂) ∧
    calculate_priority_score (pys "Low") 0 = 25 ∧
    calculate_priority_score (pys "Medium") 0 = 55 ∧
    calculate_priority_score (pys "High") 0 = 80 ∧
    calculate_priority_score (pys "Unknown") 0 = 40 := by
  refine ⟨fun r c => ?_, fun r c₁ c₂ h => ?_,
    by norm_num [calculate_priority_score, pyRound, pys] <;> decide,
    by norm_num [calculate_priority_score, pyRound, pys] <;> decide,
    by norm_num [calculate_priority_score, pyRound, pys] <;> decide,
    by norm_num [calculate_priority_score, pyRound, pys] <;> decide⟩
  · unfold calculate_priority_score
    constructor
    · exact le_max_left 0 _
    · exact max_le (by norm_num) (min_le_left 100 _)
  · unfold calculate_priority_score
    have hr : pyRound (c₁ * 20) ≤ pyRound (c₂ * 20) :=
      pyRound_mono (mul_le_mul_of_nonneg_right h (by norm_num))
    exact max_le_max le_rfl (min_le_min le_rfl (by omega))

/-- C4 witness: bounds at ("High", 1/2) and monotonicity from confidence
0 to 1 at "High". -/
theorem calculate_priority_score_spec_witness :
    (0 ≤ calculate_priority_score (pys "High") (1/2) ∧
      calculate_priority_score (pys "High") (1/2) ≤ 100) ∧
    calculate_priority_score (pys "High") 0 ≤ calculate_priority_score (pys "High") 1 :=
  ⟨calculate_priority_score_spec.1 (pys "High") (1/2),
   calculate_priority_score_spec.2.1 (pys "High") 0 1 (by norm_num)⟩

/-- Python `int(float)`: truncation toward zero. -/
def truncQ (q : ℚ) : ℤ :=
  if 0 ≤ q then ⌊q⌋ else -⌊-q⌋

/-- Python truthiness of a value (`bool(v)`). -/
def pyTruthy : PyVal → Bool
  | .none => false
  | .int n => n ≠ 0
  | .float q => q ≠ 0
  | .str s => !s.isEmpty
  | .list xs => !xs.isEmpty

/-- Python `v or d`: the left value when truthy, else the default. -/
def pyOr (v d : PyVal) : PyVal :=
  if pyTruthy v then v else d

/-- Python `int(string)`: strip, optional sign, digits only. -/
def pyIntOfStr (s : PyStr) : Option ℤ :=
  match pyTrim s with
  | '+' :: r => if !r.isEmpty && r.all Char.isDigit then some (digitsToNat r) else Option.none
  | '-' :: r => if !r.isEmpty && r.all Char.isDigit then some (-(digitsToNat r : ℤ)) else Option.none
  | r => if !r.isEmpty && r.all Char.isDigit then some (digitsToNat r) else Option.none

/-- Python `int(value)`: ints pass, floats truncate toward zero, integer
strings parse (ValueError otherwise), None and lists raise TypeError. -/
def pyToInt : PyVal → Except String ℤ
  | .int n => Except.ok n
  | .float q => Except.ok (truncQ q)
  | .str s =>
    match pyIntOfStr s with
    | some n => Except.ok n
    | Option.none => Except.error "ValueError"
  | _ => Except.error "TypeError"

/-- Python `float(value)` as a fallible coercion. -/
def pyToFloat : PyVal → Except String ℚ
  | .int n => Except.ok (n : ℚ)
  | .float q => Except.ok q
  | .str s =>
    match pyFloatOfStr s with
    | some q => Except.ok q
    | Option.none => Except.error "ValueError"
  | _ => Except.error "TypeError"

/-- Python/pandas `cell == patient_id` for an integer id: true only for an
equal number (int or float). -/
def pyEqInt : PyVal → ℤ → Bool
  | .int m, n => m = n
  | .float q, n => q = (n : ℚ)
  | _, _ => false

/-- A pandas DataFrame as used by the EHR summarizer: a declared column
list and rows of labelled cells. -/
structure PyFrame where
  cols : List PyStr
  rows : List PyDict

/-- pandas `row.get(col, default)` on a Series. -/
def rowGetD (r : PyDict) (k : PyStr) (d : PyVal) : PyVal :=
  (dictLookup r k).getD d

/-- The EHR summary record produced by inference.py. -/
structure EHRSummary where
  past_visits : ℤ
  last_risk : PyStr
  avg_bp : ℚ
  avg_heart_rate : ℚ
  chronic_conditions : PyStr
deriving Repr, DecidableEq

/-- inference.py `_build_default_ehr_summary`. -/
def build_default_ehr_summary : EHRSummary :=
  { past_visits := 0, last_risk := pys "Unknown", avg_bp := 0,
    avg_heart_rate := 0, chronic_conditions := pys "None" }

/-- inference.py `_extract_ehr_summary`: default summary when the dataset
is absent, lacks the Patient_ID column, or has no matching row; otherwise
the first matching row is coerced field by field (`or`-defaults replace
falsy cells before coercion). -/
def extract_ehr_summary (patient_id : ℤ) (source_df : Option PyFrame) :
    Except String EHRSummary :=
  match source_df with
  | Option.none => Except.ok build_default_ehr_summary
  | some df =>
    if (pys "Patient_ID") ∈ df.cols then
      match (df.rows.filter
          (fun r => pyEqInt (rowGetD r (pys "Patient_ID") PyVal.none) patient_id)).head? with
      | Option.none => Except.ok build_default_ehr_summary
      | some row =>
        match pyToInt (pyOr (rowGetD row (pys "Past_Visits") (PyVal.int 0)) (PyVal.int 0)) with
        | Except.error e => Except.error e
        | Except.ok pv =>
          match pyToFloat (pyOr (rowGetD row (pys "Avg_BP") (PyVal.int 0)) (PyVal.int 0)) with
          | Except.error e => Except.error e
          | Except.ok bp =>
            match pyToFloat (pyOr (rowGetD row (pys "Avg_Heart_Rate") (PyVal.int 0)) (PyVal.int 0)) with
            | Except.error e => Except.error e
            | Except.ok ahr =>
              Except.ok
                { past_visits := pv,
                  last_risk := pyStrOf (pyOr
                    (rowGetD row (pys "Last_Risk_Level") (PyVal.str (pys "Unknown")))
                    (PyVal.str (pys "Unknown"))),
                  avg_bp := bp,
                  avg_heart_rate := ahr,
                  chronic_conditions := pyStrOf (pyOr
                    (rowGetD row (pys "Chronic_Conditions") (PyVal.str (pys "None")))
                    (PyVal.str (pys "None"))) }
    else Except.ok build_default_ehr_summary

/-- A cell that is numeric, null, or (via the row default) absent. -/
def numOrNull (v : PyVal) : Prop :=
  v = PyVal.none ∨ (∃ n, v = PyVal.int n) ∨ ∃ q, v = PyVal.float q

theorem pyToInt_numOrNull (v : PyVal) (h : numOrNull v) :
    ∃ n, pyToInt (pyOr v (PyVal.int 0)) = Except.ok n := by
  rcases h with rfl | ⟨n, rfl⟩ | ⟨q, rfl⟩
  · exact ⟨0, rfl⟩
  · by_cases h0 : n = 0
    · exact ⟨0, by simp [pyOr, pyTruthy, h0, pyToInt]⟩
    · exact ⟨n, by simp [pyOr, pyTruthy, h0, pyToInt]⟩
  · by_cases h0 : q = 0
    · exact ⟨0, by simp [pyOr, pyTruthy, h0, pyToInt]⟩
    · exact ⟨truncQ q, by simp [pyOr, pyTruthy, h0, pyToInt]⟩

theorem pyToFloat_numOrNull (v : PyVal) (h : numOrNull v) :
    ∃ q, pyToFloat (pyOr v (PyVal.int 0)) = Except.ok q := by
  rcases h with rfl | ⟨n, rfl⟩ | ⟨q, rfl⟩
  · exact ⟨0, by simp [pyOr, pyTruthy, pyToFloat]⟩
  · by_cases h0 : n = 0
    · exact ⟨0, by simp [pyOr, pyTruthy, h0, pyToFloat]⟩
    · exact ⟨(n : ℚ), by simp [pyOr, pyTruthy, h0, pyToFloat]⟩
  · by_cases h0 : q = 0
    · exact ⟨0, by simp [pyOr, pyTruthy, h0, pyToFloat]⟩
    · exact ⟨q, by simp [pyOr, pyTruthy, h0, pyToFloat]⟩

/-- C8 (amended): the EHR summarizer returns exactly the default summary
when the dataset is absent, lacks the Patient_ID column, or contains no
matching row; when a matching row exists and its Past_Visits, Avg_BP and
Avg_Heart_Rate cells are each numeric, null or missing, it completes with
a fully-populated summary (falsy cells coerced to their defaults). A
non-numeric string in a numeric cell, however, raises ValueError, so the
unamended never-raises reading is too strong. -/
theorem extract_ehr_summary_spec :
    (∀ pid, extract_ehr_summary pid Option.none = Except.ok build_default_ehr_summary) ∧
    (∀ pid df, (pys "Patient_ID") ∉ df.cols →
      extract_ehr_summary pid (some df) = Except.ok build_default_ehr_summary) ∧
    (∀ pid df, (pys "Patient_ID") ∈ df.cols →
      df.rows.filter
        (fun r => pyEqInt (rowGetD r (pys "Patient_ID") PyVal.none) pid) = [] →
      extract_ehr_summary pid (some df) = Except.ok build_default_ehr_summary) ∧
    (∀ pid df row, (pys "Patient_ID") ∈ df.cols →
      (df.rows.filter
        (fun r => pyEqInt (rowGetD r (pys "Patient_ID") PyVal.none) pid)).head? =
          some row →
      numOrNull (rowGetD row (pys "Past_Visits") (PyVal.int 0)) →
      numOrNull (rowGetD row (pys "Avg_BP") (PyVal.int 0)) →
      numOrNull (rowGetD row (pys "Avg_Heart_Rate") (PyVal.int 0)) →
      ∃ s, extract_ehr_summary pid (some df) = Except.ok s) := by
  refine ⟨fun pid => rfl, fun pid df h => ?_, fun pid df h hf => ?_,
    fun pid df row h hf h1 h2 h3 => ?_⟩
  · simp [extract_ehr_summary, h]
  · simp [extract_ehr_summary, h, hf]
  · obtain ⟨pv, hpv⟩ := pyToInt_numOrNull _ h1
    obtain ⟨bp, hbp⟩ := pyToFloat_numOrNull _ h2
    obtain ⟨ahr, hahr⟩ := pyToFloat_numOrNull _ h3
    refine ⟨⟨pv,
      pyStrOf (pyOr (rowGetD row (pys "Last_Risk_Level") (PyVal.str (pys "Unknown")))
        (PyVal.str (pys "Unknown"))),
      bp, ahr,
      pyStrOf (pyOr (rowGetD row (pys "Chronic_Conditions") (PyVal.str (pys "None")))
        (PyVal.str (pys "None")))⟩, ?_⟩
    simp only [extract_ehr_summary, if_pos h, hf, hpv, hbp, hahr]

/-- C8 witness: a dataset whose only row belongs to patient 7 yields the
exact default summary for patient 42, and a matching row with a null
Past_Visits and missing averages completes with a summary. -/
theorem extract_ehr_summary_spec_witness :
    extract_ehr_summary 42
      (some { cols := [pys "Patient_ID"],
              rows := [[(pys "Patient_ID", PyVal.int 7)]] }) =
      Except.ok build_default_ehr_summary ∧
    ∃ s, extract_ehr_summary 42
      (some { cols := [pys "Patient_ID"],
              rows := [[(pys "Patient_ID", PyVal.int 42),
                        (pys "Past_Visits", PyVal.none)]] }) = Except.ok s := by
  constructor
  · exact extract_ehr_summary_spec.2.2.1 42
      { cols := [pys "Patient_ID"], rows := [[(pys "Patient_ID", PyVal.int 7)]] }
      (by decide) (by rfl)
  · exact extract_ehr_summary_spec.2.2.2 42
      { cols := [pys "Patient_ID"],
        rows := [[(pys "Patient_ID", PyVal.int 42), (pys "Past_Visits", PyVal.none)]] }
      [(pys "Patient_ID", PyVal.int 42), (pys "Past_Visits", PyVal.none)]
      (by decide) (by rfl) (Or.inl rfl) (Or.inr (Or.inl ⟨0, rfl⟩))
      (Or.inr (Or.inl ⟨0, rfl⟩))

/-- C8 counterexample to the unamended claim: a matching row whose
Past_Visits cell holds the non-numeric string "many" makes the summarizer
raise ValueError instead of returning a summary. -/
theorem extract_ehr_summary_counterexample :
    extract_ehr_summary 42
      (some { cols := [pys "Patient_ID", pys "Past_Visits"],
              rows := [[(pys "Patient_ID", PyVal.int 42),
                        (pys "Past_Visits", PyVal.str (pys "many"))]] }) =
      Except.error "ValueError" := by rfl

/-- The shape of `shap.TreeExplainer.shap_values` output: per-class
attribution matrices (ndim 3) or a single attribution matrix (ndim 2). -/
inductive ShapValues where
  | dim3 (t : List (List (List ℚ))) : ShapValues
  | dim2 (m : List (List ℚ)) : ShapValues

/-- `np.abs` on a matrix. -/
def absMat (m : List (List ℚ)) : List (List ℚ) :=
  m.map (fun row => row.map (fun q => |q|))

/-- Pointwise matrix addition (`+` on equally-shaped ndarrays). -/
def matAdd (a b : List (List ℚ)) : List (List ℚ) :=
  List.zipWith (List.zipWith (· + ·)) a b

/-- `np.mean(np.abs(arr), axis=0)`: sum of the absolute per-class matrices
divided by the class count. -/
def meanAbsStack : List (List (List ℚ)) → List (List ℚ)
  | [] => []
  | m :: ms =>
    ((ms.map absMat).foldl matAdd (absMat m)).map
      (fun row => row.map (fun q => q / ((ms.length + 1 : ℕ) : ℚ)))

/-- explain.py `Explainer.explain`: collapse the attributions (mean of
absolute values across classes when 3-dimensional, absolute values
otherwise), take the first row, pair with the feature names, sort by value
descending (Python's stable sort with reverse=True), and keep the top 3. -/
def explain (sv : ShapValues) (feature_names : List PyStr) : List (PyStr × ℚ) :=
  let shap_array :=
    match sv with
    | .dim3 t => meanAbsStack t
    | .dim2 m => absMat m
  let feature_importance := shap_array.headD []
  ((feature_names.zip feature_importance).mergeSort
    (fun a b => decide (b.2 ≤ a.2))).take 3

/-- Entrywise non-negativity of a row. -/
def vecNonneg (v : List ℚ) : Prop := ∀ q ∈ v, 0 ≤ q

/-- Entrywise non-negativity of a matrix. -/
def matNonneg (m : List (List ℚ)) : Prop := ∀ row ∈ m, vecNonneg row

theorem absMat_nonneg (m : List (List ℚ)) : matNonneg (absMat m) := by
  intro row hrow q hq
  simp only [absMat, List.mem_map] at hrow
  obtain ⟨r0, _, rfl⟩ := hrow
  simp only [List.mem_map] at hq
  obtain ⟨q0, _, rfl⟩ := hq
  exact abs_nonneg q0

theorem zipWith_add_nonneg (a b : List ℚ) (ha : vecNonneg a) (hb : vecNonneg b) :
    vecNonneg (List.zipWith (· + ·) a b) := by
  induction a generalizing b with
  | nil => intro q hq; simp at hq
  | cons x xs ih =>
    cases b with
    | nil => intro q hq; simp at hq
    | cons y ys =>
      intro q hq
      simp only [List.zipWith_cons_cons, List.mem_cons] at hq
      rcases hq with rfl | hq
      · exact add_nonneg (ha x (by simp)) (hb y (by simp))
      · exact ih ys (fun z hz => ha z (by simp [hz])) (fun z hz => hb z (by simp [hz])) q hq

theorem matAdd_nonneg (a b : List (List ℚ)) (ha : matNonneg a) (hb : matNonneg b) :
    matNonneg (matAdd a b) := by
  induction a generalizing b with
  | nil => intro row hrow; simp [matAdd] at hrow
  | cons x xs ih =>
    cases b with
    | nil => intro row hrow; simp [matAdd] at hrow
    | cons y ys =>
      intro row hrow
      simp only [matAdd, List.zipWith_cons_cons, List.mem_cons] at hrow
      rcases hrow with rfl | hrow
      · exact zipWith_add_nonneg x y (ha x (by simp)) (hb y (by simp))
      · exact ih ys (fun r hr => ha r (List.mem_cons_of_mem _ hr))
          (fun r hr => hb r (List.mem_cons_of_mem _ hr)) row hrow

theorem foldl_matAdd_nonneg (ms : List (List (List ℚ))) (acc : List (List ℚ))
    (hacc : matNonneg acc) :
    matNonneg ((ms.map absMat).foldl matAdd acc) := by
  induction ms generalizing acc with
  | nil => exact hacc
  | cons m rest ih =>
    simp only [List.map_cons, List.foldl_cons]
    exact ih _ (matAdd_nonneg acc (absMat m) hacc (absMat_nonneg m))

theorem meanAbsStack_nonneg (t : List (List (List ℚ))) :
    matNonneg (meanAbsStack t) := by
  cases t with
  | nil => intro row hrow; simp [meanAbsStack] at hrow
  | cons m ms =>
    intro row hrow q hq
    simp only [meanAbsStack, List.mem_map] at hrow
    obtain ⟨r0, hr0, rfl⟩ := hrow
    simp only [List.mem_map] at hq
    obtain ⟨q0, hq0, rfl⟩ := hq
    have h0 : 0 ≤ q0 := foldl_matAdd_nonneg ms (absMat m) (absMat_nonneg m) r0 hr0 q0 hq0
    exact div_nonneg h0 (by positivity)

theorem headD_mem_or_nil (m : List (List ℚ)) (h : matNonneg m) :
    vecNonneg (m.headD []) := by
  cases m with
  | nil => intro q hq; simp at hq
  | cons r rest => exact h r (by simp)

/-- C9 (amended): the explanation has at most 3 entries, sorted by
non-increasing importance value; every reported value is a magnitude
(non-negative) — in the multi-class case the mean of the absolute
attributions, and in the single-output case likewise the absolute (not
signed) attribution. -/
theorem explain_top3_sorted (sv : ShapValues) (names : List PyStr) :
    (explain sv names).length ≤ 3 ∧
    List.Pairwise (fun a b : PyStr × ℚ => b.2 ≤ a.2) (explain sv names) ∧
    ∀ p ∈ explain sv names, 0 ≤ p.2 := by
  refine ⟨List.length_take_le 3 _, ?_, ?_⟩
  · have hs := @List.sorted_mergeSort (PyStr × ℚ)
      (fun a b => decide (b.2 ≤ a.2))
      (fun a b c hab hbc => by
        simp only [decide_eq_true_eq] at hab hbc ⊢
        exact le_trans hbc hab)
      (fun a b => by
        simp only [Bool.or_eq_true, decide_eq_true_eq]
        exact le_total b.2 a.2)
      (names.zip ((match sv with
        | .dim3 t => meanAbsStack t
        | .dim2 m => absMat m).headD []))
    have hs2 : List.Pairwise (fun a b : PyStr × ℚ => b.2 ≤ a.2)
        ((names.zip ((match sv with
          | .dim3 t => meanAbsStack t
          | .dim2 m => absMat m).headD [])).mergeSort
          (fun a b => decide (b.2 ≤ a.2))) :=
      hs.imp (fun h => of_decide_eq_true h)
    exact List.Pairwise.sublist (List.take_sublist 3 _) hs2
  · intro p hp
    have hmem : p ∈ (names.zip ((match sv with
        | .dim3 t => meanAbsStack t
        | .dim2 m => absMat m).headD [])).mergeSort
        (fun a b => decide (b.2 ≤ a.2)) := List.mem_of_mem_take hp
    have hzip : p ∈ names.zip ((match sv with
        | .dim3 t => meanAbsStack t
        | .dim2 m => absMat m).headD []) :=
      (List.mergeSort_perm _ _).mem_iff.mp hmem
    have hval : p.2 ∈ (match sv with
        | .dim3 t => meanAbsStack t
        | .dim2 m => absMat m).headD [] := by
      obtain ⟨a, b⟩ := p
      exact (List.of_mem_zip hzip).2
    have hnn : vecNonneg ((match sv with
        | .dim3 t => meanAbsStack t
        | .dim2 m => absMat m).headD []) := by
      cases sv with
      | dim3 t => exact headD_mem_or_nil _ (meanAbsStack_nonneg t)
      | dim2 m => exact headD_mem_or_nil _ (absMat_nonneg m)
    exact hnn p.2 hval

/-- C9 counterexample to the unamended claim: in the single-output case the
code applies `np.abs` before sorting, so a feature with attribution -5 is
reported with value 5, not the signed attribution -5. -/
theorem explain_signed_counterexample :
    explain (ShapValues.dim2 [[(-5 : ℚ)]]) [pys "f"] = [(pys "f", 5)] ∧
      (5 : ℚ) ≠ -5 := by
  constructor
  · simp [explain, absMat]
  · norm_num

/-- The comma-joined string of a list of symptom strings. -/
def joinComma : List PyStr → PyStr
  | [] => []
  | [x] => x
  | x :: y :: rest => x ++ ',' :: joinComma (y :: rest)

theorem splitOnComma_no_comma (x : PyStr) (hx : ',' ∉ x) :
    splitOnComma x = [x] := by
  induction x with
  | nil => rfl
  | cons c cs ih =>
    have hc : ¬(c = ',') := fun h => hx (by simp [h])
    simp only [splitOnComma, if_neg hc, ih (fun h => hx (List.mem_cons_of_mem _ h))]

theorem splitOnComma_append_comma (x t : PyStr) (hx : ',' ∉ x) :
    splitOnComma (x ++ ',' :: t) = x :: splitOnComma t := by
  induction x with
  | nil => simp [splitOnComma]
  | cons c cs ih =>
    have hc : ¬(c = ',') := fun h => hx (by simp [h])
    simp only [List.cons_append, splitOnComma, if_neg hc, List.append_eq,
      ih (fun h => hx (List.mem_cons_of_mem _ h))]

theorem splitJoin_filtered (xs : List PyStr) (h : ∀ s ∈ xs, ',' ∉ s) :
    ((splitOnComma (joinComma xs)).map pyTrim).filter (fun s => !s.isEmpty) =
      (xs.map pyTrim).filter (fun s => !s.isEmpty) := by
  induction xs with
  | nil => rfl
  | cons x rest ih =>
    cases rest with
    | nil =>
      simp only [joinComma, splitOnComma_no_comma x (h x (by simp))]
    | cons y rs =>
      have hx : ',' ∉ x := h x (by simp)
      have hrest : ∀ s ∈ y :: rs, ',' ∉ s := fun s hs => h s (by simp [hs])
      simp only [joinComma, splitOnComma_append_comma x _ hx, List.map_cons,
        List.filter_cons]
      rw [ih hrest]
      simp only [List.map_cons, List.filter_cons]

theorem normalize_conditions_eq (v : PyVal) :
    normalize_conditions v = normalize_symptoms v := by
  cases v <;> rfl

/-- C7 (amended): for every list of symptom strings none of which contains
a comma, normalizing the list and normalizing its comma-joined string give
identical canonical lists, and the same holds for conditions; a symptom
containing a comma is re-split by the string path, so the unamended
universal claim fails. -/
theorem normalize_list_join_agree (xs : List PyStr) (h : ∀ s ∈ xs, ',' ∉ s) :
    normalize_symptoms (PyVal.list (xs.map PyVal.str)) =
      normalize_symptoms (PyVal.str (joinComma xs)) ∧
    normalize_conditions (PyVal.list (xs.map PyVal.str)) =
      normalize_conditions (PyVal.str (joinComma xs)) := by
  have hmain : normalize_symptoms (PyVal.list (xs.map PyVal.str)) =
      normalize_symptoms (PyVal.str (joinComma xs)) := by
    simp only [normalize_symptoms, List.map_map]
    rw [splitJoin_filtered xs h]
    rfl
  exact ⟨hmain, by rw [normalize_conditions_eq, normalize_conditions_eq]; exact hmain⟩

/-- C7 witness: [" a ", "b"] normalizes identically as a list and as the
joined string " a ,b". -/
theorem normalize_list_join_agree_witness :
    normalize_symptoms (PyVal.list [PyVal.str (pys " a "), PyVal.str (pys "b")]) =
      normalize_symptoms (PyVal.str (joinComma [pys " a ", pys "b"])) :=
  (normalize_list_join_agree [pys " a ", pys "b"] (by decide)).1

/-- C7 counterexample to the unamended claim: the single symptom "a,b"
normalizes to ["a,b"] as a list but to ["a", "b"] via the comma-joined
string, so the two paths disagree. -/
theorem normalize_join_counterexample :
    normalize_symptoms (PyVal.list [PyVal.str (pys "a,b")]) = [pys "a,b"] ∧
    normalize_symptoms (PyVal.str (joinComma [pys "a,b"])) = [pys "a", pys "b"] ∧
    ([pys "a,b"] : List PyStr) ≠ [pys "a", pys "b"] := by
  refine ⟨by decide, by decide, by decide⟩

/-- C9 witness: concrete top-contributor list with its bound and a
non-negative reported value obtained through the theorem. -/
theorem explain_top3_sorted_witness :
    (explain (ShapValues.dim2 [[(3 : ℚ)]]) [pys "f"]).length ≤ 3 ∧
      (0 : ℚ) ≤ 3 :=
  ⟨(explain_top3_sorted (ShapValues.dim2 [[(3 : ℚ)]]) [pys "f"]).1,
   (explain_top3_sorted (ShapValues.dim2 [[(3 : ℚ)]]) [pys "f"]).2.2
     (pys "f", 3) (by simp [explain, absMat])⟩
